import Mathlib

/-!
Verification of the EadDocProcessing frontend (`src/frontend/app.js`)
against its natural-language specification. The JavaScript is embedded
shallowly: the pure data transformations of the processing flow, the
results rendering, the upload-state machine and the drawer save handler
become Lean functions over explicit structures; the backend endpoints
that are not part of the repository snapshot are modelled from the spec
where a claim needs them.
-/

namespace EadDoc

/-- A page range for one detected document (fields `start_page`, `end_page`
of the boundary-detection response). -/
structure DocRange where
  start_page : Nat
  end_page : Nat
deriving DecidableEq, Repr

/-- One evidence snippet of an extraction result. -/
structure Evidence where
  page : Nat
  snippet : String
deriving DecidableEq, Repr

/-- An `ExtractionResult` as the frontend receives it from the extraction
and reconciliation endpoints: `po_primary`, `po_secondary`, `po_numbers`,
`supplier`, `confidence`, `method`, `found_keywords`, `evidence`.
Fields that JavaScript may hold as `null`/`undefined` are `Option`s. -/
structure ApiResult where
  po_primary : Option String
  po_secondary : Option String
  po_numbers : Option (List String)
  supplier : Option String
  confidence : Option Rat
  method : Option String
  found_keywords : Option (List String)
  evidence : Option (List Evidence)
deriving DecidableEq, Repr

/-- The `emptyResult` helper of `runProcessingFlow` (app.js line 285):
`{ po_primary: null, po_secondary: null, po_numbers: [], supplier: null,
confidence: 0, method, found_keywords: [], evidence: [] }`. -/
def emptyResult (method : String) : ApiResult :=
  { po_primary := none
    po_secondary := none
    po_numbers := some []
    supplier := none
    confidence := some 0
    method := some method
    found_keywords := some []
    evidence := some [] }

/-- One entry of a pipeline extraction response: `{ range, result }`. -/
structure PipeDoc where
  range : DocRange
  result : ApiResult
deriving DecidableEq, Repr

/-- The fallback list built when Pipeline A's extraction call throws
(app.js lines 270-274): `ranges.map(r => ({ range: r, result: { po_primary:
null, po_secondary: null, po_numbers: [], supplier: null, confidence: 0,
method: 'LLM', found_keywords: [], evidence: [] } }))`. -/
def pipeAFallback (ranges : List DocRange) : List PipeDoc :=
  ranges.map (fun r =>
    { range := r
      result :=
        { po_primary := none
          po_secondary := none
          po_numbers := some []
          supplier := none
          confidence := some 0
          method := some "LLM"
          found_keywords := some []
          evidence := some [] } })

/-- One entry of the reconciliation request: `{ range, result_a, result_b }`.
Both results are plain `ApiResult`s, never `null`. -/
structure ReconDoc where
  range : DocRange
  result_a : ApiResult
  result_b : ApiResult
deriving DecidableEq, Repr

/-- Step 5 of `runProcessingFlow` (app.js lines 286-290): build the
reconciliation request, substituting `emptyResult` for a pipeline entry
that is missing at an index (`pipeADocs[i] ? pipeADocs[i].result :
emptyResult('LLM')`, and the same with `'REGEX'` for pipeline B). -/
def buildReconDocs (ranges : List DocRange) (pipeADocs pipeBDocs : List PipeDoc) :
    List ReconDoc :=
  ranges.mapIdx (fun i r =>
    { range := r
      result_a := ((pipeADocs.get? i).map PipeDoc.result).getD (emptyResult "LLM")
      result_b := ((pipeBDocs.get? i).map PipeDoc.result).getD (emptyResult "REGEX") })

/-- The reconciliation request as built after Pipeline A's call failed. -/
def reconAfterAFailure (ranges : List DocRange) (pipeBDocs : List PipeDoc) :
    List ReconDoc :=
  buildReconDocs ranges (pipeAFallback ranges) pipeBDocs

/-- One document of the `/v1/reconcile/po` response as the frontend reads it:
the echoed `range`, `result_a`, `result_b` and the verdict fields
`match_status`, `decided_po_primary`, `decided_po_secondary`,
`decided_po_numbers`, `status`, `next_action`, `reject_reason`. -/
structure ApiDoc where
  range : DocRange
  match_status : String
  decided_po_primary : Option String
  decided_po_secondary : Option String
  decided_po_numbers : Option (List String)
  result_a : Option ApiResult
  result_b : Option ApiResult
  status : String
  next_action : String
  reject_reason : Option String
deriving DecidableEq, Repr

/-- JavaScript `x || null` on a nullable string: the empty string is falsy
and collapses to `null`. -/
def jsOrNull : Option String → Option String
  | some s => if s = "" then none else some s
  | none => none

/-- JavaScript `String(n).padStart(len, c)`: left-pad to `len` characters
(no change when already at least that long). -/
def padStart (s : String) (len : Nat) (c : Char) : String :=
  String.mk (List.replicate (len - s.length) c) ++ s

/-- The `doc_id` the frontend assembles for the i-th region (0-based):
``sourceFileId + "_doc" + String(i + 1).padStart(3, '0')`` (app.js
lines 295 and 328). -/
def docId (sourceFileId : String) (i : Nat) : String :=
  sourceFileId ++ "_doc" ++ padStart (toString (i + 1)) 3 '0'

/-- The UI-facing document record stored in `state.documents`
(app.js lines 293-311). -/
structure UiDoc where
  range : DocRange
  doc_id : String
  match_status : String
  decided_po : Option String
  decided_po_secondary : Option String
  decided_po_numbers : List String
  pipeline_a_po : Option String
  pipeline_b_po : Option String
  pipeline_a_po_numbers : List String
  pipeline_b_po_numbers : List String
  confidence_a : Option Rat
  confidence_b : Option Rat
  final_status : String
  next_action : String
  reject_reason : Option String
  pipeline_a : Option ApiResult
  pipeline_b : Option ApiResult
deriving DecidableEq, Repr

/-- The per-document mapping of the reconciliation response into the
UI-friendly record (`reconRes.documents.map((d, i) => ...)`, app.js
lines 293-311). `d.result_a ? e : null` becomes a `match` on the option. -/
def mapDoc (sourceFileId : String) (i : Nat) (d : ApiDoc) : UiDoc :=
  { range := d.range
    doc_id := docId sourceFileId i
    match_status := d.match_status
    decided_po := jsOrNull d.decided_po_primary
    decided_po_secondary := jsOrNull d.decided_po_secondary
    decided_po_numbers := d.decided_po_numbers.getD []
    pipeline_a_po := match d.result_a with | some ra => ra.po_primary | none => none
    pipeline_b_po := match d.result_b with | some rb => rb.po_primary | none => none
    pipeline_a_po_numbers :=
      match d.result_a with | some ra => ra.po_numbers.getD [] | none => []
    pipeline_b_po_numbers :=
      match d.result_b with | some rb => rb.po_numbers.getD [] | none => []
    confidence_a := match d.result_a with | some ra => ra.confidence | none => none
    confidence_b := match d.result_b with | some rb => rb.confidence | none => none
    final_status := d.status
    next_action := d.next_action
    reject_reason := d.reject_reason
    pipeline_a := d.result_a
    pipeline_b := d.result_b }

/-- The assignment `state.documents = reconRes.documents.map((d, i) => ...)`. -/
def mapDocs (sourceFileId : String) (docs : List ApiDoc) : List UiDoc :=
  docs.mapIdx (mapDoc sourceFileId)

/-- One `DocumentRecord` of the Excel-export request (app.js lines 326-350). -/
structure ExcelDoc where
  source_file_id : String
  doc_id : String
  page_start : Nat
  page_end : Nat
  supplier_a : Option String
  po_primary_a : Option String
  po_secondary_a : Option String
  po_numbers_a : List String
  confidence_a : Option Rat
  method_a : Option String
  supplier_b : Option String
  po_primary_b : Option String
  po_secondary_b : Option String
  po_numbers_b : List String
  confidence_b : Option Rat
  method_b : Option String
  match_status : String
  decided_po_primary : Option String
  decided_po_secondary : Option String
  decided_po_numbers : List String
  status : String
  next_action : String
  reject_reason : Option String
deriving DecidableEq, Repr

/-- The per-document mapping to the Excel `DocumentRecord` format
(`reconRes.documents.map((d, i) => ...)`, app.js lines 326-350). Note
`confidence_a: d.result_a ? d.result_a.confidence : 0` defaults to `0`
here, unlike the UI mapping which defaults to `null`. -/
def excelDoc (sourceFileId : String) (i : Nat) (d : ApiDoc) : ExcelDoc :=
  { source_file_id := sourceFileId
    doc_id := docId sourceFileId i
    page_start := d.range.start_page
    page_end := d.range.end_page
    supplier_a := match d.result_a with | some ra => ra.supplier | none => none
    po_primary_a := match d.result_a with | some ra => ra.po_primary | none => none
    po_secondary_a := match d.result_a with | some ra => ra.po_secondary | none => none
    po_numbers_a := match d.result_a with | some ra => ra.po_numbers.getD [] | none => []
    confidence_a := match d.result_a with | some ra => ra.confidence | none => some 0
    method_a := match d.result_a with | some ra => ra.method | none => none
    supplier_b := match d.result_b with | some rb => rb.supplier | none => none
    po_primary_b := match d.result_b with | some rb => rb.po_primary | none => none
    po_secondary_b := match d.result_b with | some rb => rb.po_secondary | none => none
    po_numbers_b := match d.result_b with | some rb => rb.po_numbers.getD [] | none => []
    confidence_b := match d.result_b with | some rb => rb.confidence | none => some 0
    method_b := match d.result_b with | some rb => rb.method | none => none
    match_status := d.match_status
    decided_po_primary := d.decided_po_primary
    decided_po_secondary := d.decided_po_secondary
    decided_po_numbers := d.decided_po_numbers.getD []
    status := d.status
    next_action := d.next_action
    reject_reason := d.reject_reason }

/-- The list `excelDocs = reconRes.documents.map((d, i) => ...)` of step 7. -/
def excelDocs (sourceFileId : String) (docs : List ApiDoc) : List ExcelDoc :=
  docs.mapIdx (excelDoc sourceFileId)

/-- The exception predicate used by `renderTable`'s exceptions-only filter
(app.js lines 410-412): `d.match_status === 'NEEDS_REVIEW' ||
d.match_status === 'MISMATCH'`. -/
def isExceptionDoc (d : UiDoc) : Bool :=
  d.match_status == "NEEDS_REVIEW" || d.match_status == "MISMATCH"

/-- The `renderResults` count `review` (app.js line 385):
`docs.filter(d => d.match_status === 'NEEDS_REVIEW').length`. -/
def reviewCount (docs : List UiDoc) : Nat :=
  (docs.filter (fun d => d.match_status == "NEEDS_REVIEW")).length

/-- The `renderResults` count `mismatch` (app.js line 386):
`docs.filter(d => d.match_status === 'MISMATCH').length`. -/
def mismatchCount (docs : List UiDoc) : Nat :=
  (docs.filter (fun d => d.match_status == "MISMATCH")).length

/-- The `renderResults` review-alert count (app.js line 394):
`exceptions = review + mismatch`. -/
def exceptionsCount (docs : List UiDoc) : Nat :=
  reviewCount docs + mismatchCount docs

/-- A value produced by `getSortValue`: a number or a string. -/
inductive SortValue where
  | num (n : Nat)
  | str (s : String)
deriving DecidableEq, Repr

/-- The function `getSortValue(doc, field)` (app.js lines 456-466). `range` is always
present on mapped documents, so the `doc.range ? ... : 0` guard reduces to
the field access. -/
def getSortValue (doc : UiDoc) (field : String) : SortValue :=
  match field with
  | "id" => .num doc.range.start_page
  | "doc_id" => .str doc.doc_id
  | "pages" => .num doc.range.start_page
  | "decided_po" => .str (doc.decided_po.getD "")
  | "match" => .str doc.match_status
  | "final" => .str doc.final_status
  | _ => .str ""

/-- JavaScript `va < vb` on two sort values of the same shape; a mixed
numeric/string comparison in JavaScript coerces to `NaN` for the
non-numeric strings produced here and yields `false`. -/
def svLt : SortValue → SortValue → Bool
  | .num m, .num n => decide (m < n)
  | .str s, .str t => decide (s < t)
  | _, _ => false

/-- The `sort` comparator of `renderTable` (app.js lines 417-423) turned
into a boolean "less or equal" usable by a stable merge sort: the
comparator returns a value `<= 0` exactly when the pair may stay in order. -/
def sortLe (field : String) (asc : Bool) (a b : UiDoc) : Bool :=
  if asc then ! svLt (getSortValue b field) (getSortValue a field)
  else ! svLt (getSortValue a field) (getSortValue b field)

/-- The list of rows `renderTable` displays, in order (app.js lines
405-427): start from `state.documents`, filter when the exceptions-only
toggle is on, and, only when a sort field is set, sort a spread-copy. -/
def renderTableList (docs : List UiDoc) (showExceptionsOnly : Bool)
    (sortField : Option String) (sortAsc : Bool) : List UiDoc :=
  let filtered := if showExceptionsOnly then docs.filter isExceptionDoc else docs
  match sortField with
  | none => filtered
  | some f => filtered.mergeSort (sortLe f sortAsc)

/-- A heap of JavaScript arrays of documents: references are indices into
the allocation list. -/
abbrev Heap := List (List UiDoc)

/-- Read the array a reference points to. -/
def Heap.read (h : Heap) (r : Nat) : List UiDoc :=
  (List.get? h r).getD []

/-- Allocate a fresh array, returning the new heap and the new reference. -/
def Heap.alloc (h : Heap) (a : List UiDoc) : Heap × Nat :=
  (List.append h [a], List.length h)

/-- Overwrite the array a reference points to (an in-place mutation such
as `Array.prototype.sort`). -/
def Heap.write (h : Heap) (r : Nat) (a : List UiDoc) : Heap :=
  List.set h r a

/-- The function `renderTable` (app.js lines 405-424) over the array heap, keeping the
aliasing of the JavaScript explicit: `let filtered = docs` aliases
`state.documents`; `docs.filter(...)` allocates a fresh array;
`[...filtered]` allocates a spread-copy; `.sort(...)` mutates in place the
array it is called on (here always the spread-copy). Returns the heap
after rendering and the reference to the displayed array. -/
def renderTableHeap (h : Heap) (docsRef : Nat) (showExceptionsOnly : Bool)
    (sortField : Option String) (sortAsc : Bool) : Heap × Nat :=
  let step1 : Heap × Nat :=
    if showExceptionsOnly then Heap.alloc h ((Heap.read h docsRef).filter isExceptionDoc)
    else (h, docsRef)
  match sortField with
  | none => step1
  | some f =>
    let step2 := Heap.alloc step1.1 (Heap.read step1.1 step1.2)
    (Heap.write step2.1 step2.2
      ((Heap.read step2.1 step2.2).mergeSort (sortLe f sortAsc)), step2.2)

/-- The body of the `/v1/documents` PATCH response the save handler reads:
`decided_po_primary` and `next_action`. -/
structure UpdateResult where
  decided_po_primary : Option String
  next_action : String
deriving DecidableEq, Repr

/-- The client-state update the drawer save handler performs on success
(app.js lines 526-527): `doc.decided_po = result.decided_po_primary;
doc.next_action = result.next_action;` — no other field of the document
record is touched. -/
def applySaveResult (doc : UiDoc) (result : UpdateResult) : UiDoc :=
  { doc with
    decided_po := result.decided_po_primary
    next_action := result.next_action }

/-- The document list after a successful save on the document at `idx`
(the handler mutates the element `state.documents[idx]` in place). -/
def updateDocAt (docs : List UiDoc) (idx : Nat) (result : UpdateResult) :
    List UiDoc :=
  docs.modify (fun d => applySaveResult d result) idx

/-- JavaScript `String.prototype.trim`: strip whitespace from both ends. -/
def jsTrim (s : String) : String :=
  String.mk (((s.toList.dropWhile Char.isWhitespace).reverse.dropWhile
    Char.isWhitespace).reverse)

/-- What the drawer save handler does with a click, as seen by the user:
nothing at all, a successful save, or an error display. -/
inductive OverrideOutcome where
  | ignored
  | success (result : UpdateResult)
  | failure (message : String)
deriving DecidableEq, Repr

/-- The drawer save-click flow (app.js lines 518-548), abstracted over the
update endpoint: `const newPo = poEditInput.value.trim(); if (!newPo)
return;` silently drops input that trims to empty (the empty string is
falsy); otherwise the PATCH call is made and an exception lands in the
`catch` branch that shows the error state. -/
def overrideFlow (api : String → Except String UpdateResult)
    (input : String) : OverrideOutcome :=
  let newPo := jsTrim input
  if newPo = "" then .ignored
  else
    match api newPo with
    | .ok result => .success result
    | .error e => .failure e

/-- Modelled from the spec: the Normalizer's canonicalization (§4.3) used
by the Override Layer, whose implementation is not under `src/` — strip
non-digit characters; a value that canonicalizes to empty cannot be
normalized. -/
def canonicalizeSpec (s : String) : Option String :=
  let digits := s.toList.filter Char.isDigit
  if digits.isEmpty then none else some (String.mk digits)

/-- Modelled from the spec: the document-update endpoint behind
`apiUpdateDocument` (backend, not under `src/`) — it re-validates the new
PO through the Normalizer's canonicalization, fails with `InvalidPoFormat`
if it canonicalizes to empty or cannot be normalized, and on success
forces `next_action = "none — manually confirmed"` (§4.5). -/
def specUpdateApi (po : String) : Except String UpdateResult :=
  match canonicalizeSpec po with
  | none => .error "InvalidPoFormat"
  | some c => .ok { decided_po_primary := some c, next_action := "none — manually confirmed" }

/-- A `File` object as the upload view sees it. -/
structure FileObj where
  name : String
  size : Nat
deriving DecidableEq, Repr

/-- The slice of `state` the upload view controls: the selected file and
the disabled flag of the start-processing button. -/
structure UploadState where
  file : Option FileObj
  btnDisabled : Bool
deriving DecidableEq, Repr

/-- The PDF check of `setFile` (app.js line 83):
`file.name.toLowerCase().endsWith('.pdf')`, over the character list so it
evaluates by reduction. -/
def isPdfName (s : String) : Bool :=
  List.isSuffixOf ".pdf".toList (s.toList.map Char.toLower)

/-- The handler `setFile(file)` (app.js lines 82-91): rejects a missing file or a name
that does not end in `.pdf` by returning with the state untouched;
otherwise stores the file and enables the start button. -/
def setFileS (st : UploadState) (file : Option FileObj) : UploadState :=
  match file with
  | none => st
  | some f =>
    if !isPdfName f.name then st
    else { st with file := some f, btnDisabled := false }

/-- The handler `clearFile()` (app.js lines 93-98): drops the file and disables the
start button. -/
def clearFileS (_st : UploadState) : UploadState :=
  { file := none, btnDisabled := true }

/-- The initial upload state: `state.file` starts as `null` and the
start-processing button's markup starts it disabled (the markup is not
under `src/`; `clearFile` re-establishes exactly this state). -/
def initUpload : UploadState :=
  { file := none, btnDisabled := true }

/-- The user events that reach the upload state: choosing a file via drop
or the file input (`setFile`), removing it (`clearFile`), and the
new-upload reset, which nulls the file and then calls `clearFile`
(app.js lines 654-656). -/
inductive UploadEvent where
  | choose (file : Option FileObj)
  | remove
  | newUpload
deriving DecidableEq, Repr

/-- One step of the upload view's state machine. -/
def stepUpload (st : UploadState) : UploadEvent → UploadState
  | .choose f => setFileS st f
  | .remove => clearFileS st
  | .newUpload => clearFileS { st with file := none }

/-- Run a sequence of upload events from a state. -/
def runUpload (st : UploadState) (evs : List UploadEvent) : UploadState :=
  evs.foldl stepUpload st

/-- The upload-view invariant: the stored file, when present, has a name
that case-insensitively ends in `.pdf`, and the start button is disabled
exactly when no file is stored. -/
def uploadInv (st : UploadState) : Bool :=
  (match st.file with
   | some f => isPdfName f.name
   | none => true) &&
  (st.btnDisabled == st.file.isNone)

/-- Status of one stage tile in the processing view. -/
inductive StageStatus where
  | pending
  | active
  | done
  | error
deriving DecidableEq, Repr

/-- The observable outcome of steps 6-8 of `runProcessingFlow`: the final
status and detail of the splitting and indexing stages, whether the
results view gets rendered, and the document list it renders. -/
structure TailResult where
  splitStatus : StageStatus
  splitDetail : String
  indexStatus : StageStatus
  indexDetail : String
  resultsRendered : Bool
  renderedDocs : List UiDoc
deriving DecidableEq, Repr

/-- Steps 6-8 of `runProcessingFlow` (app.js lines 314-359), abstracted
over the outcomes of the `apiSplit` and `apiExportExcel` calls: each call
sits in its own `try`/`catch`, and both branches of each mark the stage
`done` (with different detail text); afterwards `renderResults()` is
scheduled unconditionally, over the documents stored at step 5. -/
def flowTail (nRanges : Nat) (documents : List UiDoc)
    (splitOutcome exportOutcome : Except String Unit) : TailResult :=
  let split :=
    match splitOutcome with
    | .ok _ => (StageStatus.done, toString nRanges ++ " ficheiros criados")
    | .error _ => (StageStatus.done, "Concluído")
  let index :=
    match exportOutcome with
    | .ok _ => (StageStatus.done, "Excel gerado")
    | .error _ => (StageStatus.done, "Concluído")
  { splitStatus := split.1
    splitDetail := split.2
    indexStatus := index.1
    indexDetail := index.2
    resultsRendered := true
    renderedDocs := documents }

/-- The five `match_status` values of the spec's data model (§3). -/
def specMatchStatuses : List String :=
  ["MATCH_OK", "PARTIAL_MATCH", "MISMATCH", "SINGLE_PIPELINE", "NONE_FOUND"]

/-- A reconciliation verdict as the spec's Reconciliation Engine produces
it (§3, §4.4). -/
structure VerdictSpec where
  match_status : String
  decided_po_set : List String
  final_status : String
  next_action : String
  reject_reason : Option String
deriving DecidableEq, Repr

/-- Set equality of two ordered unique PO lists: same elements, order
irrelevant, full equality. -/
def poSetEq (a b : List String) : Bool :=
  a.all (fun x => b.contains x) && b.all (fun x => a.contains x)

/-- Modelled from the spec: the Reconciliation Engine's verdict algorithm
(§4.4, cases 2-6) — the engine behind `/v1/reconcile/po` is not under
`src/`. Input are the two canonical PO sets of one region. -/
def reconcileSpec (setA setB : List String) : VerdictSpec :=
  if setA.isEmpty && setB.isEmpty then
    { match_status := "NONE_FOUND"
      decided_po_set := []
      final_status := "REVIEW"
      next_action := "manual PO entry required"
      reject_reason := some "no PO found by either pipeline" }
  else if setA.isEmpty then
    { match_status := "SINGLE_PIPELINE"
      decided_po_set := setB
      final_status := "REVIEW"
      next_action := "confirm single-pipeline result"
      reject_reason := none }
  else if setB.isEmpty then
    { match_status := "SINGLE_PIPELINE"
      decided_po_set := setA
      final_status := "REVIEW"
      next_action := "confirm single-pipeline result"
      reject_reason := none }
  else if poSetEq setA setB then
    { match_status := "MATCH_OK"
      decided_po_set := setA
      final_status := "ACCEPTED"
      next_action := "none — auto-accepted"
      reject_reason := none }
  else if (setA.filter (fun x => setB.contains x)).isEmpty then
    { match_status := "MISMATCH"
      decided_po_set := []
      final_status := "REVIEW"
      next_action := "manual reconciliation required"
      reject_reason := some "pipelines disagree completely" }
  else
    { match_status := "PARTIAL_MATCH"
      decided_po_set := setA.filter (fun x => setB.contains x)
      final_status := "REVIEW"
      next_action := "review conflicting POs"
      reject_reason := some "pipelines partially agree" }

/-- The reconciliation-response document for a region where pipeline A was
skipped and pipeline B found `{80001234}` (spec §8, scenario 2), carrying
the spec engine's verdict for that region. -/
def singlePipelineApiDoc : ApiDoc :=
  { range := { start_page := 0, end_page := 1 }
    match_status := (reconcileSpec [] ["80001234"]).match_status
    decided_po_primary := some "80001234"
    decided_po_secondary := none
    decided_po_numbers := some (reconcileSpec [] ["80001234"]).decided_po_set
    result_a := some (emptyResult "LLM")
    result_b := some
      { po_primary := some "80001234"
        po_secondary := none
        po_numbers := some ["80001234"]
        supplier := none
        confidence := some 1
        method := some "REGEX"
        found_keywords := some []
        evidence := some [] }
    status := (reconcileSpec [] ["80001234"]).final_status
    next_action := (reconcileSpec [] ["80001234"]).next_action
    reject_reason := (reconcileSpec [] ["80001234"]).reject_reason }

/-- Replace the `confidence` fields of `result_a` and `result_b` of a
reconciliation-response document, leaving every other field alone: two
responses that differ only in the confidence fields are related by this
map. -/
def withConfidences (d : ApiDoc) (ca cb : Option Rat) : ApiDoc :=
  { d with
    result_a := d.result_a.map (fun r => { r with confidence := ca })
    result_b := d.result_b.map (fun r => { r with confidence := cb }) }

/-- The UI record of the single-pipeline region: `final_status` is
`REVIEW` and its PO awaits manual confirmation. -/
def reviewUiDoc : UiDoc :=
  mapDoc "f1" 0 singlePipelineApiDoc

/-- The update-API response for a successful override with `53681855`. -/
def overrideResult : UpdateResult :=
  { decided_po_primary := some "53681855"
    next_action := "none — manually confirmed" }

/-! ## Helper lemmas -/

/-- Indexing into a `mapIdx` applies the function at that index. -/
theorem mapIdx_getElem? {α β : Type} (f : Nat → α → β) (l : List α) (i : Nat) :
    (List.mapIdx f l)[i]? = Option.map (f i) l[i]? := by
  induction l generalizing f i with
  | nil => simp
  | cons a l ih =>
    cases i with
    | zero => simp [List.mapIdx_cons]
    | succ n => simp [List.mapIdx_cons, ih]

/-- Two `List.modify` at the same index compose. -/
theorem modify_modify_same {α : Type} (f g : α → α) (i : Nat) (l : List α) :
    List.modify f i (List.modify g i l) = List.modify (fun a => f (g a)) i l := by
  unfold List.modify
  rw [List.modifyTailIdx_modifyTailIdx_same]
  congr 1
  funext t
  cases t <;> simp [List.modifyHead]

/-- Reading below the allocation point is unaffected by an allocation. -/
theorem read_alloc_lt (h : Heap) (a : List UiDoc) (r : Nat) (hr : r < h.length) :
    Heap.read (Heap.alloc h a).1 r = Heap.read h r := by
  simp [Heap.read, Heap.alloc, List.get?_eq_getElem?, List.getElem?_append, hr]

/-- Writing one reference leaves the arrays behind other references
unchanged. -/
theorem read_write_ne (h : Heap) (w r : Nat) (hne : w ≠ r) (a : List UiDoc) :
    Heap.read (Heap.write h w a) r = Heap.read h r := by
  simp [Heap.read, Heap.write, List.get?_eq_getElem?, List.getElem?_set_ne hne]

/-- A single upload event preserves the upload-view invariant. -/
theorem uploadInv_step (st : UploadState) (e : UploadEvent)
    (hst : uploadInv st = true) : uploadInv (stepUpload st e) = true := by
  cases e with
  | choose f =>
    cases f with
    | none => exact hst
    | some file =>
      by_cases hp : isPdfName file.name
      · simp [stepUpload, setFileS, uploadInv, hp]
      · simpa [stepUpload, setFileS, hp] using hst
  | remove => simp [stepUpload, clearFileS, uploadInv]
  | newUpload => simp [stepUpload, clearFileS, uploadInv]

/-- Any event sequence from an invariant state stays invariant. -/
theorem uploadInv_run (st : UploadState) (evs : List UploadEvent)
    (hst : uploadInv st = true) : uploadInv (runUpload st evs) = true := by
  induction evs generalizing st with
  | nil => exact hst
  | cons e evs ih => exact ih _ (uploadInv_step st e hst)

/-! ## Claim theorems -/

/-- C2: after Pipeline A's extraction call fails, and at every region index
where a pipeline produced no entry, the reconciliation request built by
`runProcessingFlow` carries an explicit empty `ExtractionResult` — with
`po_primary` and `po_secondary` null, `po_numbers` empty, confidence 0 and
a method tag set — never a null placeholder, and the request covers all
regions (one entry per range). -/
theorem c2_empty_result_substitution (ranges : List DocRange)
    (pipeBDocs : List PipeDoc) (i : Nat) (hi : i < ranges.length) :
    (reconAfterAFailure ranges pipeBDocs).length = ranges.length ∧
    ∃ e : ReconDoc, (reconAfterAFailure ranges pipeBDocs)[i]? = some e ∧
      ranges[i]? = some e.range ∧
      e.result_a = emptyResult "LLM" ∧
      (pipeBDocs[i]? = none → e.result_b = emptyResult "REGEX") ∧
      e.result_a.po_primary = none ∧
      e.result_a.po_secondary = none ∧
      e.result_a.po_numbers = some [] ∧
      e.result_a.confidence = some 0 ∧
      e.result_a.method = some "LLM" := by
  obtain ⟨r, hr⟩ : ∃ r, ranges[i]? = some r :=
    ⟨ranges[i], (List.getElem?_eq_getElem hi)⟩
  constructor
  · simp [reconAfterAFailure, buildReconDocs, List.length_mapIdx]
  · have hfall : (pipeAFallback ranges)[i]? =
        some { range := r, result := emptyResult "LLM" } := by
      simp [pipeAFallback, List.getElem?_map, hr, emptyResult]
    have hx : (reconAfterAFailure ranges pipeBDocs)[i]? = some
        { range := r
          result_a := emptyResult "LLM"
          result_b := ((pipeBDocs.get? i).map PipeDoc.result).getD (emptyResult "REGEX") } := by
      rw [reconAfterAFailure, buildReconDocs, mapIdx_getElem?, hr]
      simp [hfall]
    refine ⟨_, hx, hr, rfl, ?_, rfl, rfl, rfl, rfl, rfl⟩
    intro hb
    simp [List.get?_eq_getElem?, hb]

/-- C2 witness: one region, pipeline B returned no entries. -/
theorem c2_empty_result_substitution_witness :
    (reconAfterAFailure [{ start_page := 0, end_page := 2 }] []).length = 1 ∧
    ∃ e : ReconDoc,
      (reconAfterAFailure [{ start_page := 0, end_page := 2 }] [])[0]? = some e ∧
      ([{ start_page := 0, end_page := 2 }] : List DocRange)[0]? = some e.range ∧
      e.result_a = emptyResult "LLM" ∧
      (([] : List PipeDoc)[0]? = none → e.result_b = emptyResult "REGEX") ∧
      e.result_a.po_primary = none ∧
      e.result_a.po_secondary = none ∧
      e.result_a.po_numbers = some [] ∧
      e.result_a.confidence = some 0 ∧
      e.result_a.method = some "LLM" :=
  c2_empty_result_substitution [{ start_page := 0, end_page := 2 }] [] 0 (by decide)

/-- C1 fails on the code: for the spec-valid reconciled document with
`match_status = SINGLE_PIPELINE` and `final_status = REVIEW` (spec §4.4
case 3, here produced by the spec-modelled engine on pipeline A empty and
pipeline B finding `{80001234}`), the results view's exception predicate
(`NEEDS_REVIEW`/`MISMATCH` only) excludes it: it is dropped by the
exceptions-only filter and not counted in the review alert even though its
`final_status` is not `ACCEPTED` and its `match_status` is one of the five
spec values. -/
theorem c1_exceptions_filter_misses_review_documents :
    (reconcileSpec [] ["80001234"]).match_status = "SINGLE_PIPELINE" ∧
    (reconcileSpec [] ["80001234"]).final_status = "REVIEW" ∧
    specMatchStatuses.contains singlePipelineApiDoc.match_status = true ∧
    (mapDoc "f1" 0 singlePipelineApiDoc).final_status ≠ "ACCEPTED" ∧
    isExceptionDoc (mapDoc "f1" 0 singlePipelineApiDoc) = false ∧
    exceptionsCount [mapDoc "f1" 0 singlePipelineApiDoc] = 0 ∧
    renderTableList [mapDoc "f1" 0 singlePipelineApiDoc] true none true = [] := by
  decide

/-- C3 fails on the code: a successful drawer save updates only
`decided_po` and `next_action` of the client document record (app.js
lines 526-527); `final_status` keeps its old value, so a document under
review stays displayed as `REVIEW` instead of `ACCEPTED` after the
override of its PO to `53681855`. -/
theorem c3_final_status_not_updated_after_override :
    reviewUiDoc.final_status = "REVIEW" ∧
    overrideFlow specUpdateApi "53681855" = OverrideOutcome.success overrideResult ∧
    (applySaveResult reviewUiDoc overrideResult).decided_po = some "53681855" ∧
    (applySaveResult reviewUiDoc overrideResult).next_action =
      "none — manually confirmed" ∧
    (applySaveResult reviewUiDoc overrideResult).final_status = "REVIEW" ∧
    (applySaveResult reviewUiDoc overrideResult).final_status ≠ "ACCEPTED" := by
  decide

/-- C4: changing only the confidence fields of `result_a`/`result_b` in a
reconciliation-response document never changes the mapped document's
`match_status`, `decided_po`, `decided_po_secondary`, `decided_po_numbers`,
`final_status` or `next_action`. -/
theorem c4_confidence_never_influences_verdict (sourceFileId : String)
    (i : Nat) (d : ApiDoc) (ca cb : Option Rat) :
    (mapDoc sourceFileId i (withConfidences d ca cb)).match_status =
      (mapDoc sourceFileId i d).match_status ∧
    (mapDoc sourceFileId i (withConfidences d ca cb)).decided_po =
      (mapDoc sourceFileId i d).decided_po ∧
    (mapDoc sourceFileId i (withConfidences d ca cb)).decided_po_secondary =
      (mapDoc sourceFileId i d).decided_po_secondary ∧
    (mapDoc sourceFileId i (withConfidences d ca cb)).decided_po_numbers =
      (mapDoc sourceFileId i d).decided_po_numbers ∧
    (mapDoc sourceFileId i (withConfidences d ca cb)).final_status =
      (mapDoc sourceFileId i d).final_status ∧
    (mapDoc sourceFileId i (withConfidences d ca cb)).next_action =
      (mapDoc sourceFileId i d).next_action :=
  ⟨rfl, rfl, rfl, rfl, rfl, rfl⟩

/-- C5: when the reconciliation response echoes the region ranges in
order, the mapped document list and the Excel-index records correspond
index-by-index to `ranges[i]`, each carrying the `doc_id` suffix
`doc(i+1)` zero-padded to three digits, and the results table with no sort
field applied lists the documents in that same order (exactly
`state.documents` in the default view, and an order-preserving sublist of
it under any filter). -/
theorem c5_aggregation_preserves_region_order (sourceFileId : String)
    (apiDocuments : List ApiDoc) (ranges : List DocRange)
    (h : apiDocuments.map ApiDoc.range = ranges) :
    (mapDocs sourceFileId apiDocuments).length = ranges.length ∧
    (excelDocs sourceFileId apiDocuments).length = ranges.length ∧
    (∀ i d, (mapDocs sourceFileId apiDocuments)[i]? = some d →
      ranges[i]? = some d.range ∧
      d.doc_id = sourceFileId ++ "_doc" ++ padStart (toString (i + 1)) 3 '0') ∧
    (∀ i e, (excelDocs sourceFileId apiDocuments)[i]? = some e →
      (∃ r, ranges[i]? = some r ∧ e.page_start = r.start_page ∧
        e.page_end = r.end_page) ∧
      e.doc_id = sourceFileId ++ "_doc" ++ padStart (toString (i + 1)) 3 '0') ∧
    renderTableList (mapDocs sourceFileId apiDocuments) false none true =
      mapDocs sourceFileId apiDocuments ∧
    (∀ eo sa, (renderTableList (mapDocs sourceFileId apiDocuments) eo none sa).Sublist
      (mapDocs sourceFileId apiDocuments)) := by
  subst h
  refine ⟨?_, ?_, ?_, ?_, ?_, ?_⟩
  · simp [mapDocs, List.length_mapIdx]
  · simp [excelDocs, List.length_mapIdx]
  · intro i d hd
    rw [mapDocs, mapIdx_getElem?] at hd
    cases ha : apiDocuments[i]? with
    | none => rw [ha] at hd; simp at hd
    | some a =>
      rw [ha] at hd
      simp only [Option.map_some', Option.some.injEq] at hd
      subst hd
      exact ⟨by rw [List.getElem?_map, ha]; rfl, rfl⟩
  · intro i e he
    rw [excelDocs, mapIdx_getElem?] at he
    cases ha : apiDocuments[i]? with
    | none => rw [ha] at he; simp at he
    | some a =>
      rw [ha] at he
      simp only [Option.map_some', Option.some.injEq] at he
      subst he
      exact ⟨⟨a.range, by rw [List.getElem?_map, ha]; rfl, rfl, rfl⟩, rfl⟩
  · simp [renderTableList]
  · intro eo sa
    cases eo with
    | false => simp [renderTableList]
    | true => exact List.filter_sublist (mapDocs sourceFileId apiDocuments)

/-- C5 witness: one reconciled region. -/
theorem c5_aggregation_preserves_region_order_witness :
    (mapDocs "batch9" [singlePipelineApiDoc]).length =
      [singlePipelineApiDoc.range].length ∧
    renderTableList (mapDocs "batch9" [singlePipelineApiDoc]) false none true =
      mapDocs "batch9" [singlePipelineApiDoc] :=
  ⟨(c5_aggregation_preserves_region_order "batch9" [singlePipelineApiDoc]
      [singlePipelineApiDoc.range] rfl).1,
   (c5_aggregation_preserves_region_order "batch9" [singlePipelineApiDoc]
      [singlePipelineApiDoc.range] rfl).2.2.2.2.1⟩

/-- C6 fails on the code: a whitespace-only override submission trims to
the empty string and the save handler returns silently — no API call, no
failure of any kind, in particular no `InvalidPoFormat` surfaced to the
caller. -/
theorem c6_whitespace_override_silently_ignored :
    overrideFlow specUpdateApi "   " = OverrideOutcome.ignored ∧
    OverrideOutcome.ignored ≠ OverrideOutcome.failure "InvalidPoFormat" := by
  decide

/-- C6 amended: an override submission whose value trims to empty is
silently ignored by the client (no API call, no visible failure); only
non-empty trimmed values reach the update endpoint — one that cannot be
normalized fails there with `InvalidPoFormat`, surfaced as the save error
state, one that canonicalizes succeeds — and `InvalidPoFormat` is the
only failure the override flow ever surfaces as an error. -/
theorem c6_invalid_po_format_surfacing (input : String) :
    (jsTrim input = "" → overrideFlow specUpdateApi input =
      OverrideOutcome.ignored) ∧
    (jsTrim input ≠ "" → canonicalizeSpec (jsTrim input) = none →
      overrideFlow specUpdateApi input =
        OverrideOutcome.failure "InvalidPoFormat") ∧
    (∀ c, jsTrim input ≠ "" → canonicalizeSpec (jsTrim input) = some c →
      overrideFlow specUpdateApi input = OverrideOutcome.success
        { decided_po_primary := some c
          next_action := "none — manually confirmed" }) ∧
    (∀ m, overrideFlow specUpdateApi input = OverrideOutcome.failure m →
      m = "InvalidPoFormat") := by
  refine ⟨?_, ?_, ?_, ?_⟩
  · intro hempty
    simp [overrideFlow, hempty]
  · intro hne hcanon
    simp [overrideFlow, hne, specUpdateApi, hcanon]
  · intro c hne hcanon
    simp [overrideFlow, hne, specUpdateApi, hcanon]
  · intro m hm
    by_cases hempty : jsTrim input = ""
    · simp [overrideFlow, hempty] at hm
    · cases hcanon : canonicalizeSpec (jsTrim input) with
      | none =>
        simp [overrideFlow, hempty, specUpdateApi, hcanon] at hm
        exact hm.symm
      | some c =>
        simp [overrideFlow, hempty, specUpdateApi, hcanon] at hm

/-- C6 witness: the empty submission is ignored; a non-digit submission
fails with `InvalidPoFormat`; a digit submission with surrounding blanks
succeeds with the canonical value; the failure message of the non-digit
submission can only be `InvalidPoFormat`. -/
theorem c6_invalid_po_format_surfacing_witness :
    overrideFlow specUpdateApi "" = OverrideOutcome.ignored ∧
    overrideFlow specUpdateApi "abc" =
      OverrideOutcome.failure "InvalidPoFormat" ∧
    overrideFlow specUpdateApi " 53681855 " = OverrideOutcome.success
      { decided_po_primary := some "53681855"
        next_action := "none — manually confirmed" } ∧
    "InvalidPoFormat" = "InvalidPoFormat" :=
  ⟨(c6_invalid_po_format_surfacing "").1 (by decide),
   (c6_invalid_po_format_surfacing "abc").2.1 (by decide) (by decide),
   (c6_invalid_po_format_surfacing " 53681855 ").2.2.1 "53681855"
     (by decide) (by decide),
   (c6_invalid_po_format_surfacing "abc").2.2.2 "InvalidPoFormat"
     ((c6_invalid_po_format_surfacing "abc").2.1 (by decide) (by decide))⟩

/-- C7: re-applying the same override result to the same document index is
a no-op on the client document list — two successful saves of the same
value leave exactly the state one save leaves. -/
theorem c7_override_idempotent (docs : List UiDoc) (idx : Nat)
    (result : UpdateResult) :
    updateDocAt (updateDocAt docs idx result) idx result =
      updateDocAt docs idx result := by
  unfold updateDocAt
  rw [modify_modify_same]
  rfl

/-- C10: whatever the outcomes of the PDF-split and Excel-export calls,
both stages end `done`, the results view is rendered, and it renders the
reconciled documents — a throwing split or export never aborts the flow. -/
theorem c10_split_export_failures_never_abort (nRanges : Nat)
    (documents : List UiDoc) (splitOutcome exportOutcome : Except String Unit) :
    (flowTail nRanges documents splitOutcome exportOutcome).splitStatus =
      StageStatus.done ∧
    (flowTail nRanges documents splitOutcome exportOutcome).indexStatus =
      StageStatus.done ∧
    (flowTail nRanges documents splitOutcome exportOutcome).resultsRendered =
      true ∧
    (flowTail nRanges documents splitOutcome exportOutcome).renderedDocs =
      documents := by
  cases splitOutcome <;> cases exportOutcome <;> simp [flowTail]

/-- C8: from the initial upload state, every sequence of upload events
keeps `state.file` either null or a file whose name case-insensitively
ends in `.pdf`, with the start-processing button enabled exactly when a
file is stored; `setFile` with no file, or with a non-PDF name, leaves the
state unchanged. -/
theorem c8_upload_state_invariant (evs : List UploadEvent)
    (st : UploadState) (f : FileObj) :
    uploadInv (runUpload initUpload evs) = true ∧
    setFileS st none = st ∧
    (isPdfName f.name = false → setFileS st (some f) = st) := by
  refine ⟨uploadInv_run _ _ (by decide), rfl, ?_⟩
  intro hnp
  simp [setFileS, hnp]

/-- C8 witness: choosing a PDF then removing it keeps the invariant;
choosing nothing or a `.txt` file changes nothing. -/
theorem c8_upload_state_invariant_witness :
    uploadInv (runUpload initUpload
      [UploadEvent.choose (some { name := "batch.PDF", size := 7 }),
       UploadEvent.remove]) = true ∧
    setFileS initUpload none = initUpload ∧
    setFileS initUpload (some { name := "notes.txt", size := 3 }) = initUpload :=
  ⟨(c8_upload_state_invariant
      [UploadEvent.choose (some { name := "batch.PDF", size := 7 }),
       UploadEvent.remove] initUpload { name := "notes.txt", size := 3 }).1,
   (c8_upload_state_invariant [] initUpload
      { name := "notes.txt", size := 3 }).2.1,
   (c8_upload_state_invariant [] initUpload
      { name := "notes.txt", size := 3 }).2.2 (by decide)⟩

/-- C9: rendering the results table never mutates the array behind
`state.documents` — for every heap, every exceptions-only setting and
every (or no) sort field, the sort happens on a freshly-allocated
spread-copy and the array the documents reference points to is unchanged
in order and contents. -/
theorem c9_render_table_never_mutates_documents (h : Heap) (docsRef : Nat)
    (href : docsRef < h.length) (showExceptionsOnly : Bool)
    (sortField : Option String) (sortAsc : Bool) :
    Heap.read
      (renderTableHeap h docsRef showExceptionsOnly sortField sortAsc).1
      docsRef = Heap.read h docsRef := by
  cases sortField with
  | none =>
    cases showExceptionsOnly with
    | false => rfl
    | true => exact read_alloc_lt h _ docsRef href
  | some f =>
    cases showExceptionsOnly with
    | false =>
      exact (read_write_ne _ _ _ (Nat.ne_of_gt href) _).trans
        (read_alloc_lt h _ docsRef href)
    | true =>
      have href1 : docsRef < (Heap.alloc h
          ((Heap.read h docsRef).filter isExceptionDoc)).1.length := by
        simp [Heap.alloc]
        exact Nat.lt_succ_of_lt href
      exact ((read_write_ne _ _ _ (Nat.ne_of_gt href1) _).trans
        (read_alloc_lt _ _ docsRef href1)).trans
        (read_alloc_lt h _ docsRef href)

/-- C9 witness: a one-array heap, exceptions filter on and a sort field
set. -/
theorem c9_render_table_never_mutates_documents_witness :
    Heap.read
      (renderTableHeap [[reviewUiDoc]] 0 true (some "match") true).1 0 =
      Heap.read [[reviewUiDoc]] 0 :=
  c9_render_table_never_mutates_documents [[reviewUiDoc]] 0 (by decide)
    true (some "match") true

end EadDoc
